/-
Verification of the discord-onboarding-bot core logic.

Shallow embedding conventions:
* JS strings that undergo character-level processing are modelled as
  `List Char`; opaque identifiers (user ids, guild ids, role names) stay
  `String`.
* The in-memory `Collection` registries (invite cache, session map) are
  modelled as association lists with map semantics (`regGet`, `regSet`,
  `regDelete`).
* Asynchronous external calls (DM send, sheet append, guild/member/role
  lookups) are modelled by an `Env` record of outcome flags; a JS `throw`
  inside `finalizeOnboarding`'s try-block is modelled by the
  `HandlerResult.thrown` constructor, and the catch-block by
  `finalizeOnboarding` wrapping `finalizeTry`.
* Observable side effects are collected in a `List Effect` in program
  order.
-/
import Mathlib

namespace OnboardingBot

/-! ## JS string primitives -/

/-- The set of code points removed by JavaScript `String.prototype.trim`
(WhiteSpace and LineTerminator productions). -/
def isJsWhitespace (c : Char) : Bool :=
  c.toNat ∈ [9, 10, 11, 12, 13, 32, 160, 0x1680,
    0x2000, 0x2001, 0x2002, 0x2003, 0x2004, 0x2005, 0x2006, 0x2007,
    0x2008, 0x2009, 0x200A, 0x2028, 0x2029, 0x202F, 0x205F, 0x3000, 0xFEFF]

/-- JS `s.trim()`: drop leading and trailing whitespace. -/
def jsTrim (l : List Char) : List Char :=
  ((l.dropWhile isJsWhitespace).reverse.dropWhile isJsWhitespace).reverse

/-- Convert a Lean string literal to the `List Char` representation. -/
def str (s : String) : List Char := s.data

/-! ## validators.js -/

/-- One step of the regex replace `/[\r\n\t]/g → ' '`: each carriage
return, line feed or tab becomes one space. -/
def collapseCtl (c : Char) : Char :=
  if c = '\r' || c = '\n' || c = '\t' then ' ' else c

/-- `sanitizeInput(input)`: `input.trim().replace(/[\r\n\t]/g, ' ').substring(0, 500)`. -/
def sanitizeInput (l : List Char) : List Char :=
  ((jsTrim l).map collapseCtl).take 500

/-- Characters allowed in the local part of the email regex:
`[a-zA-Z0-9.!#$%&'*+/=?^_`{|}~-]` (apostrophe, backtick and braces are
written via `Char.ofNat`). -/
def isLocalChar (c : Char) : Bool :=
  c.isAlphanum ||
  c ∈ ['.', '!', '#', '$', '%', '&', Char.ofNat 39, '*', '+', '/',
       '=', '?', '^', '_', Char.ofNat 96, Char.ofNat 123, '|',
       Char.ofNat 125, '~', '-']

/-- One domain label of the email regex:
`[a-zA-Z0-9](?:[a-zA-Z0-9-]{0,61}[a-zA-Z0-9])?` — between 1 and 63
characters, first and last alphanumeric, interior alphanumeric or
hyphen. -/
def validLabel (lab : List Char) : Bool :=
  decide (1 ≤ lab.length) && decide (lab.length ≤ 63) &&
  (match lab.head? with
   | some c => c.isAlphanum
   | none => false) &&
  (match lab.getLast? with
   | some c => c.isAlphanum
   | none => false) &&
  ((lab.drop 1).dropLast.all fun c => c.isAlphanum || c == '-')

/-- Split a character list on a separator character, mirroring the
decomposition a regex match performs at characters excluded from every
character class. Always returns at least one (possibly empty) group. -/
def splitOnChar (sep : Char) : List Char → List (List Char)
  | [] => [[]]
  | c :: cs =>
    match splitOnChar sep cs with
    | [] => [[]]
    | g :: gs => if c = sep then [] :: g :: gs else (c :: g) :: gs

/-- The domain side of the email regex: one label followed by zero or
more `.`-label groups, i.e. every `.`-separated group is a valid label. -/
def validDomain (d : List Char) : Bool :=
  (splitOnChar '.' d).all validLabel

/-- `isValidEmail(email)`: the anchored regex
`^<local>+@<label>(\.<label>)*$` tested against `email.trim()`.  Since
`@` belongs to no character class of the regex, a match decomposes the
trimmed string as exactly one `@` between a non-empty local part and the
domain. -/
def isValidEmail (email : List Char) : Bool :=
  match splitOnChar '@' (jsTrim email) with
  | [localPart, domain] =>
    decide (localPart ≠ []) && localPart.all isLocalChar && validDomain domain
  | _ => false

/-- `isValidPhone(phone)`: strip non-digits (`replace(/\D/g,'')`), then
accept iff 10–15 digits remain. -/
def isValidPhone (phone : List Char) : Bool :=
  let digitsOnly := phone.filter Char.isDigit
  decide (10 ≤ digitsOnly.length) && decide (digitsOnly.length ≤ 15)

/-- `isValidName(name)`: trimmed length at least 2 and at least one
ASCII letter (`/[a-zA-Z]/`). -/
def isValidName (name : List Char) : Bool :=
  let trimmed := jsTrim name
  decide (2 ≤ trimmed.length) && trimmed.any Char.isAlpha

/-- Count of ASCII digit characters in a string (the quantity the spec
phrases `isValidPhone` in terms of). -/
def countDigits (l : List Char) : Nat := l.countP fun c => c.isDigit

/-! ## index.js — invite tracking

The per-guild invite cache maps an invite code to its use count; a fetch
returns the platform's list of invites in iteration order, modelled as a
`List (String × Nat)` of (code, uses) pairs. -/

/-- `Collection.get` on a cached (code ↦ uses) map. -/
def lookupUses : List (String × Nat) → String → Option Nat
  | [], _ => none
  | p :: t, code => if p.1 = code then some p.2 else lookupUses t code

/-- `detectUsedInvite(guild)`, success-of-fetch path.  Takes the freshly
fetched invites and the guild's current cache entry (`none` when the
guild has no entry); returns the detected invite (`none` =
undetermined) and the guild's cache entry after the call.  Mirrors the
source: when no prior cache exists it returns early, *before* the cache
update; otherwise it finds the first fetched invite whose uses strictly
exceed its cached uses and then overwrites the cache entry with the
fetched counts. -/
def detectUsedInvite (newInvites : List (String × Nat))
    (cacheEntry : Option (List (String × Nat))) :
    Option (String × Nat) × Option (List (String × Nat)) :=
  match cacheEntry with
  | none => (none, none)
  | some oldInvites =>
    let usedInvite := newInvites.find? fun inv =>
      match lookupUses oldInvites inv.1 with
      | some oldUses => decide (oldUses < inv.2)
      | none => false
    (usedInvite, some newInvites)

/-! ## Data model: sessions, registry, effects, environment -/

/-- An onboarding session (onboarding.js `session` object).  Collected
answers are sanitized strings keyed by the question's field key. -/
structure Session where
  userId : String
  username : String
  guildId : String
  channelName : String
  channelId : Option String
  currentStep : Nat
  data : List (String × List Char)
  started : Bool
  startedAt : Nat
deriving Repr, DecidableEq

/-- The in-memory session registry (`onboardingSessions` Collection),
keyed by user id. -/
abbrev Registry := List (String × Session)

/-- `sessions.get(k)`. -/
def regGet : Registry → String → Option Session
  | [], _ => none
  | p :: t, k => if p.1 = k then some p.2 else regGet t k

/-- `sessions.set(k, v)`: replace in place or append. -/
def regSet : Registry → String → Session → Registry
  | [], k, v => [(k, v)]
  | p :: t, k, v => if p.1 = k then (k, v) :: t else p :: regSet t k v

/-- `sessions.delete(k)`. -/
def regDelete : Registry → String → Registry
  | [], _ => []
  | p :: t, k => if p.1 = k then regDelete t k else p :: regDelete t k

/-- `session.data[key]` lookup. -/
def dataGet : List (String × List Char) → String → Option (List Char)
  | [], _ => none
  | p :: t, k => if p.1 = k then some p.2 else dataGet t k

/-- `session.data[key] = value`. -/
def dataSet : List (String × List Char) → String → List Char →
    List (String × List Char)
  | [], k, v => [(k, v)]
  | p :: t, k, v => if p.1 = k then (k, v) :: t else p :: dataSet t k v

/-- The row appended to the spreadsheet by `appendToSheet`:
`[timestamp, name, email, phone, discordUsername, channel]`. -/
structure SheetRow where
  timestamp : String
  name : Option (List Char)
  email : Option (List Char)
  phone : Option (List Char)
  discordUsername : String
  channel : String
deriving Repr, DecidableEq

/-- The three onboarding questions, in `QUESTION_ORDER`. -/
inductive QKey where
  | NAME
  | EMAIL
  | PHONE
deriving Repr, DecidableEq

/-- The user-visible messages the handlers send, identified by which
fixed template the source uses. -/
inductive Msg where
  /-- '⏳ Processing your information...' -/
  | processing
  /-- the fixed allow-list rejection message -/
  | rejection
  /-- '❌ An error occurred while saving your information. ...' (finalize catch) -/
  | genericError
  /-- final confirmation, with or without the channel link button -/
  | confirmation (withButton : Bool)
  /-- prompt text of a question -/
  | question (k : QKey)
  /-- fixed per-question validation error text -/
  | validationError (k : QKey)
  /-- '⚠️ An error occurred. Please try again ...' (messageCreate catch) -/
  | handlerError
deriving Repr, DecidableEq

/-- Observable external side effects, in program order. -/
inductive Effect where
  /-- a DM sent to the user -/
  | dmSend (userId : String) (m : Msg)
  /-- a row appended to the spreadsheet -/
  | sheetAppend (row : SheetRow)
  /-- the Learner role granted to the member -/
  | roleAdd (userId : String) (roleName : String)
  /-- permission overwrite created on the course channel -/
  | permOverwrite (channelId : String) (userId : String)
  /-- public welcome message posted in the course channel -/
  | channelSend (channelId : String)
deriving Repr, DecidableEq

/-- One record of paidLearners.json.  `email` is `none` when the field
is absent (JS `undefined`). -/
structure Learner where
  name : String
  email : Option (List Char)
  program : String
  batch : String
deriving DecidableEq

/-- State of the allow-list data source as seen by one
`verifyPaidLearner` call (emailVerification.js reads it fresh each
time). -/
inductive RosterSource where
  /-- `fs.existsSync` is false -/
  | missing
  /-- `fs.readFileSync` throws -/
  | unreadable
  /-- `JSON.parse` throws -/
  | malformed
  /-- parse succeeded, yielding this list of records -/
  | ok (learners : List Learner)
deriving DecidableEq

/-- The profile fields returned on a successful verification. -/
structure LearnerData where
  name : String
  email : Option (List Char)
  program : String
  batch : String
deriving Repr, DecidableEq

/-- Return value of `verifyPaidLearner`. -/
structure VerificationResult where
  isVerified : Bool
  learnerData : Option LearnerData
deriving Repr, DecidableEq

/-- Outcomes of the external calls one handler run performs, plus the
ambient configuration (role name, current timestamp). -/
structure Env where
  roster : RosterSource
  now : String
  roleName : String
  dmOk : Bool
  appendOk : Bool
  guildFound : Bool
  memberFound : Bool
  roleFound : Bool
  roleAddOk : Bool
  channelFound : Bool
  overwriteOk : Bool
  channelSendOk : Bool

/-! ## emailVerification.js -/

/-- The `find` predicate of `verifyPaidLearner`:
`learner.email && learner.email.toLowerCase().trim() === normalizedEmail`.
A missing field (`none`) and the empty string are both falsy in JS, so
both fail the guard.  `Char.toLower` models `toLowerCase` (the roster
emails are ASCII). -/
def learnerMatches (normalizedEmail : List Char) (l : Learner) : Bool :=
  match l.email with
  | none => false
  | some e => decide (e ≠ []) && decide (jsTrim (e.map Char.toLower) = normalizedEmail)

/-- `verifyPaidLearner(email)`.  The whole body sits in a try/catch that
returns `{isVerified: false, learnerData: null}` on any throw, so a
missing, unreadable or malformed roster — and an `undefined` email,
whose `.toLowerCase()` throws — all land on the same not-verified
result. -/
def verifyPaidLearner (src : RosterSource) (email : Option (List Char)) :
    VerificationResult :=
  match src with
  | .missing => ⟨false, none⟩
  | .unreadable => ⟨false, none⟩
  | .malformed => ⟨false, none⟩
  | .ok learners =>
    match email with
    | none => ⟨false, none⟩
    | some em =>
      let normalizedEmail := jsTrim (em.map Char.toLower)
      match learners.find? (learnerMatches normalizedEmail) with
      | some l => ⟨true, some ⟨l.name, l.email, l.program, l.batch⟩⟩
      | none => ⟨false, none⟩

/-! ## onboarding.js — finalizeOnboarding -/

/-- Result of a handler body that may throw: `thrown` carries the
registry and the effects performed before the JS exception. -/
inductive HandlerResult where
  | ok (reg : Registry) (effs : List Effect)
  | thrown (reg : Registry) (effs : List Effect)
deriving DecidableEq

/-- The channel-access block of `finalizeOnboarding` (runs only when
`session.channelId` is non-null).  Lookup failure only warns; the
permission-overwrite call sits in an inner try/catch, and the public
welcome post in another — neither failure escapes, so this phase never
throws and never touches the registry. -/
def finalizeChannelPhase (env : Env) (s : Session) (effs : List Effect) :
    List Effect :=
  match s.channelId with
  | none => effs
  | some cid =>
    if env.channelFound then
      if env.overwriteOk then
        let effs1 := effs ++ [Effect.permOverwrite cid s.userId]
        if env.channelSendOk then effs1 ++ [Effect.channelSend cid] else effs1
      else effs
    else effs

/-- The try-block of `finalizeOnboarding`, line by line: processing
notice, allow-list check (reject branch deletes the session and
returns), sheet append (a rejected append throws), guild and member
resolution (throw when absent), role grant (lookup miss only warns; a
failing `roles.add` throws), channel phase, confirmation DM, and only
then `sessions.delete`. -/
def finalizeTry (env : Env) (s : Session) (reg : Registry) : HandlerResult :=
  if !env.dmOk then .thrown reg [] else
  let effs0 := [Effect.dmSend s.userId Msg.processing]
  let vr := verifyPaidLearner env.roster (dataGet s.data "email")
  if !vr.isVerified then
    if !env.dmOk then .thrown reg effs0 else
    .ok (regDelete reg s.userId) (effs0 ++ [Effect.dmSend s.userId Msg.rejection])
  else
    if !env.appendOk then .thrown reg effs0 else
    let row : SheetRow :=
      ⟨env.now, dataGet s.data "name", dataGet s.data "email",
       dataGet s.data "phone", s.username, s.channelName⟩
    let effs1 := effs0 ++ [Effect.sheetAppend row]
    if !env.guildFound then .thrown reg effs1 else
    if !env.memberFound then .thrown reg effs1 else
    if env.roleFound && !env.roleAddOk then .thrown reg effs1 else
    let effs2 := effs1 ++
      (if env.roleFound then [Effect.roleAdd s.userId env.roleName] else [])
    let effs3 := finalizeChannelPhase env s effs2
    if !env.dmOk then .thrown reg effs3 else
    .ok (regDelete reg s.userId)
      (effs3 ++ [Effect.dmSend s.userId (Msg.confirmation s.channelId.isSome)])

/-- `finalizeOnboarding(message, session, sessions, client)`.  The
catch-block notifies the user with the generic failure message (its own
send failure is swallowed by `.catch(() => {})`) and deliberately does
NOT delete the session. -/
def finalizeOnboarding (env : Env) (s : Session) (reg : Registry) :
    Registry × List Effect :=
  match finalizeTry env s reg with
  | .ok reg1 effs => (reg1, effs)
  | .thrown reg1 effs =>
    (reg1, effs ++ (if env.dmOk then [Effect.dmSend s.userId Msg.genericError] else []))

/-! ## onboarding.js — question flow and index.js message handler -/

/-- `QUESTION_ORDER = ['NAME', 'EMAIL', 'PHONE']`. -/
def QUESTION_ORDER : List QKey := [QKey.NAME, QKey.EMAIL, QKey.PHONE]

/-- Field key of a question (`QUESTIONS[k].key`). -/
def questionKey : QKey → String
  | .NAME => "name"
  | .EMAIL => "email"
  | .PHONE => "phone"

/-- Validator predicate of a question (`QUESTIONS[k].validator`). -/
def questionValidator : QKey → (List Char → Bool)
  | .NAME => isValidName
  | .EMAIL => isValidEmail
  | .PHONE => isValidPhone

/-- A direct message as seen by the `messageCreate` handler. -/
structure Message where
  authorId : String
  fromBot : Bool
  inGuild : Bool
  content : List Char

/-- `handleResponse(message, session, sessions, client)`.  The session
object is mutated in place *before* any send, so the registry update
survives a failing send.  An out-of-range `currentStep` (possible for a
session retained by the finalize catch-block) makes
`QUESTIONS[undefined].validator` throw a TypeError, modelled by
`thrown`. -/
def handleResponse (env : Env) (msg : Message) (s : Session) (reg : Registry) :
    HandlerResult :=
  match QUESTION_ORDER.get? s.currentStep with
  | none => .thrown reg []
  | some qkey =>
    let userInput := sanitizeInput msg.content
    if !questionValidator qkey userInput then
      if env.dmOk then .ok reg [Effect.dmSend s.userId (Msg.validationError qkey)]
      else .thrown reg []
    else
      let s1 : Session :=
        { s with data := dataSet s.data (questionKey qkey) userInput,
                 currentStep := s.currentStep + 1 }
      let reg1 := regSet reg s.userId s1
      if s1.currentStep < QUESTION_ORDER.length then
        match QUESTION_ORDER.get? s1.currentStep with
        | some nextKey =>
          if env.dmOk then .ok reg1 [Effect.dmSend s.userId (Msg.question nextKey)]
          else .thrown reg1 []
        | none => .thrown reg1 []
      else
        match finalizeOnboarding env s1 reg1 with
        | (reg2, effs) => .ok reg2 effs

/-- The `messageCreate` handler of index.js: ignore bot and guild
messages; ignore authors with no session; ignore sessions whose Start
button has not been clicked; otherwise run `handleResponse` inside a
try/catch whose catch sends a fixed warning (own failure swallowed). -/
def onMessageCreate (env : Env) (reg : Registry) (msg : Message) :
    Registry × List Effect :=
  if msg.fromBot || msg.inGuild then (reg, []) else
  match regGet reg msg.authorId with
  | none => (reg, [])
  | some s =>
    if !s.started then (reg, []) else
    match handleResponse env msg s reg with
    | .ok reg1 effs => (reg1, effs)
    | .thrown reg1 effs =>
      (reg1, effs ++ (if env.dmOk then [Effect.dmSend msg.authorId Msg.handlerError] else []))

/-! ## Helper lemmas -/

/-- Deleting a key from the registry makes its lookup miss. -/
theorem regGet_regDelete (reg : Registry) (k : String) :
    regGet (regDelete reg k) k = none := by
  induction reg with
  | nil => rfl
  | cons p t ih =>
    by_cases h : p.1 = k
    · simp [regDelete, h, ih]
    · simp [regDelete, regGet, h, ih]

/-- On the reject branch (DM deliverable, email not verified) the
try-block of finalize sends exactly the processing notice and the
rejection message and deletes the session. -/
theorem finalizeTry_reject_eq (env : Env) (s : Session) (reg : Registry)
    (hdm : env.dmOk = true)
    (hv : (verifyPaidLearner env.roster (dataGet s.data "email")).isVerified = false) :
    finalizeTry env s reg = .ok (regDelete reg s.userId)
      [Effect.dmSend s.userId Msg.processing, Effect.dmSend s.userId Msg.rejection] := by
  simp [finalizeTry, hdm, hv]

/-- When the sheet append fails, the try-block throws after the
processing notice, leaving the registry untouched. -/
theorem finalizeTry_appendFail_eq (env : Env) (s : Session) (reg : Registry)
    (hdm : env.dmOk = true)
    (hv : (verifyPaidLearner env.roster (dataGet s.data "email")).isVerified = true)
    (ha : env.appendOk = false) :
    finalizeTry env s reg = .thrown reg [Effect.dmSend s.userId Msg.processing] := by
  simp [finalizeTry, hdm, hv, ha]

/-- On a fully successful accept branch (append, guild, member resolve;
a found role is grantable) finalize deletes the session, whatever the
channel-phase outcomes are. -/
theorem finalize_accept_reg (env : Env) (s : Session) (reg : Registry)
    (hdm : env.dmOk = true)
    (hv : (verifyPaidLearner env.roster (dataGet s.data "email")).isVerified = true)
    (ha : env.appendOk = true) (hg : env.guildFound = true) (hm : env.memberFound = true)
    (hr : env.roleFound = true → env.roleAddOk = true) :
    (finalizeOnboarding env s reg).1 = regDelete reg s.userId := by
  by_cases hrf : env.roleFound = true
  · simp [finalizeOnboarding, finalizeTry, hdm, hv, ha, hg, hm, hrf, hr hrf]
  · simp only [Bool.not_eq_true] at hrf
    simp [finalizeOnboarding, finalizeTry, hdm, hv, ha, hg, hm, hrf]

/-- Unfolds the guard conjunction of `validLabel` into the properties
the spec states label-wise. -/
theorem validLabel_spec (lab : List Char) (h : validLabel lab = true) :
    lab ≠ [] ∧ (∃ c, lab.head? = some c ∧ c.isAlphanum = true) ∧
    (∃ c, lab.getLast? = some c ∧ c.isAlphanum = true) ∧
    (∀ c ∈ (lab.drop 1).dropLast, c.isAlphanum = true ∨ c = '-') := by
  unfold validLabel at h
  simp only [Bool.and_eq_true, decide_eq_true_eq] at h
  obtain ⟨⟨⟨⟨h1, h2⟩, h3⟩, h4⟩, h5⟩ := h
  refine ⟨?_, ?_, ?_, ?_⟩
  · intro hnil
    rw [hnil] at h1
    simp at h1
  · cases hh : lab.head? with
    | none => rw [hh] at h3; simp at h3
    | some c => rw [hh] at h3; exact ⟨c, rfl, h3⟩
  · cases hh : lab.getLast? with
    | none => rw [hh] at h4; simp at h4
    | some c => rw [hh] at h4; exact ⟨c, rfl, h4⟩
  · intro c hc
    have := List.all_eq_true.mp h5 c hc
    simp only [Bool.or_eq_true, beq_iff_eq] at this
    exact this

/-! ## Concrete instances used by counterexamples and witnesses -/

/-- A session whose Start button has not been clicked yet. -/
def sessionNotStarted : Session :=
  ⟨"u1", "user#0001", "g1", "general", none, 0, [], false, 0⟩

/-- A session that has answered all three questions. -/
def sessionComplete : Session :=
  ⟨"u2", "jane#0001", "g1", "course", some "c1", 3,
   [("name", str "Jane Doe"), ("email", str "jane@scaler.com"),
    ("phone", str "9998887777")], true, 0⟩

/-- An allow-list containing exactly the completed session's email. -/
def rosterJane : RosterSource :=
  RosterSource.ok [⟨"Jane Doe", some (str "jane@scaler.com"), "SST", "B1"⟩]

/-- Every external call succeeds and the session's email is enrolled. -/
def envAccept : Env :=
  ⟨rosterJane, "2024-01-01T00:00:00.000Z", "Learner",
   true, true, true, true, true, true, true, true, true⟩

/-- Same but the spreadsheet append call fails. -/
def envAppendFail : Env :=
  ⟨rosterJane, "2024-01-01T00:00:00.000Z", "Learner",
   true, false, true, true, true, true, true, true, true⟩

/-- Every external call succeeds but the allow-list is empty. -/
def envEmptyRoster : Env :=
  ⟨RosterSource.ok [], "2024-01-01T00:00:00.000Z", "Learner",
   true, true, true, true, true, true, true, true, true⟩

/-- Every external call succeeds but the allow-list file is absent. -/
def envMissingRoster : Env :=
  ⟨RosterSource.missing, "2024-01-01T00:00:00.000Z", "Learner",
   true, true, true, true, true, true, true, true, true⟩

/-- A direct message from a human user u1. -/
def msgHello : Message := ⟨"u1", false, false, str "hello"⟩

/-! ## Claims -/

/-- C1: when the completed session's email is not in the allow-list,
finalize sends the fixed rejection message, deletes the session from
the registry, and performs no external writes — the complete effect
list is the processing notice plus the rejection DM, so no sheet row is
appended and no role is granted. -/
theorem finalize_rejection_branch (env : Env) (s : Session) (reg : Registry)
    (hdm : env.dmOk = true)
    (hv : (verifyPaidLearner env.roster (dataGet s.data "email")).isVerified = false) :
    (finalizeOnboarding env s reg).1 = regDelete reg s.userId ∧
    (finalizeOnboarding env s reg).2 =
      [Effect.dmSend s.userId Msg.processing, Effect.dmSend s.userId Msg.rejection] ∧
    (∀ row, Effect.sheetAppend row ∉ (finalizeOnboarding env s reg).2) ∧
    (∀ u r, Effect.roleAdd u r ∉ (finalizeOnboarding env s reg).2) := by
  rw [finalizeOnboarding, finalizeTry_reject_eq env s reg hdm hv]
  simp

/-- C1 witness: the rejection branch at a concrete completed session
whose email is missing from an empty allow-list. -/
theorem finalize_rejection_branch_witness :
    (finalizeOnboarding envEmptyRoster sessionComplete [("u2", sessionComplete)]).1 =
      regDelete [("u2", sessionComplete)] sessionComplete.userId ∧
    (finalizeOnboarding envEmptyRoster sessionComplete [("u2", sessionComplete)]).2 =
      [Effect.dmSend sessionComplete.userId Msg.processing,
       Effect.dmSend sessionComplete.userId Msg.rejection] ∧
    (∀ row, Effect.sheetAppend row ∉
      (finalizeOnboarding envEmptyRoster sessionComplete [("u2", sessionComplete)]).2) ∧
    (∀ u r, Effect.roleAdd u r ∉
      (finalizeOnboarding envEmptyRoster sessionComplete [("u2", sessionComplete)]).2) :=
  finalize_rejection_branch envEmptyRoster sessionComplete [("u2", sessionComplete)]
    rfl (by decide)

/-- C2: when the record-append call inside finalize fails, the registry
is returned unchanged — the session is not deleted and stays available
for manual reprocessing — and the complete effect list is the
processing notice plus the generic failure DM: no retry of the append
(or any other effect) is performed. -/
theorem finalize_append_failure (env : Env) (s : Session) (reg : Registry)
    (hdm : env.dmOk = true)
    (hv : (verifyPaidLearner env.roster (dataGet s.data "email")).isVerified = true)
    (ha : env.appendOk = false) :
    (finalizeOnboarding env s reg).1 = reg ∧
    (finalizeOnboarding env s reg).2 =
      [Effect.dmSend s.userId Msg.processing, Effect.dmSend s.userId Msg.genericError] := by
  rw [finalizeOnboarding, finalizeTry_appendFail_eq env s reg hdm hv ha]
  simp [hdm]

/-- C2 witness: the append-failure branch at a concrete verified
session. -/
theorem finalize_append_failure_witness :
    (finalizeOnboarding envAppendFail sessionComplete [("u2", sessionComplete)]).1 =
      [("u2", sessionComplete)] ∧
    (finalizeOnboarding envAppendFail sessionComplete [("u2", sessionComplete)]).2 =
      [Effect.dmSend sessionComplete.userId Msg.processing,
       Effect.dmSend sessionComplete.userId Msg.genericError] :=
  finalize_append_failure envAppendFail sessionComplete [("u2", sessionComplete)]
    rfl (by decide) rfl

/-- C3 counterexample: a finalize run on a completed, verified session
whose sheet append fails returns with the session still present in the
registry, so finalization does not always remove the session. -/
theorem finalize_retains_session_cex :
    regGet (finalizeOnboarding envAppendFail sessionComplete
      [("u2", sessionComplete)]).1 "u2" = some sessionComplete := by decide

/-- C3 amended: on the reject branch and on the fully successful accept
branch (append, guild and member resolution succeed, and a found role
is grantable) finalize removes the session from the registry; on the
error branch — for example a failed record append — the session is
retained (see the counterexample). -/
theorem finalize_removes_session_on_decided_branches (env : Env) (s : Session)
    (reg : Registry) (hdm : env.dmOk = true)
    (hbranch :
      (verifyPaidLearner env.roster (dataGet s.data "email")).isVerified = false ∨
      ((verifyPaidLearner env.roster (dataGet s.data "email")).isVerified = true ∧
       env.appendOk = true ∧ env.guildFound = true ∧ env.memberFound = true ∧
       (env.roleFound = true → env.roleAddOk = true))) :
    regGet (finalizeOnboarding env s reg).1 s.userId = none := by
  rcases hbranch with hv | ⟨hv, ha, hg, hm, hr⟩
  · rw [finalizeOnboarding, finalizeTry_reject_eq env s reg hdm hv]
    exact regGet_regDelete reg s.userId
  · rw [finalize_accept_reg env s reg hdm hv ha hg hm hr]
    exact regGet_regDelete reg s.userId

/-- C3 witness: the accept branch at a concrete verified session with
every external call succeeding. -/
theorem finalize_removes_session_on_decided_branches_witness :
    regGet (finalizeOnboarding envAccept sessionComplete
      [("u2", sessionComplete)]).1 sessionComplete.userId = none :=
  finalize_removes_session_on_decided_branches envAccept sessionComplete
    [("u2", sessionComplete)] rfl
    (Or.inr ⟨by decide, rfl, rfl, rfl, fun _ => rfl⟩)

/-- C4 counterexample: `isValidEmail "a@b"` evaluates to true — the
regex allows a single-label domain with no dot-separated top-level
label, contradicting the claimed false. -/
theorem isValidEmail_bare_domain_cex : isValidEmail (str "a@b") = true := by decide

/-- C4 amended: isValidEmail returns true for user@example.com, false
for not-an-email, and true (not false) for a@b — the domain part is
ONE-or-more dot-separated labels, so a bare domain is accepted; in
general a valid email splits at a single at-sign into a non-empty local
part of the allowed symbol set and a domain whose dot-separated labels
each start and end alphanumeric with only alphanumerics and internal
hyphens between, applied to the trimmed input. -/
theorem isValidEmail_spec :
    isValidEmail (str "user@example.com") = true ∧
    isValidEmail (str "not-an-email") = false ∧
    isValidEmail (str "a@b") = true ∧
    (∀ l, isValidEmail l = true →
      ∃ localPart domain, splitOnChar '@' (jsTrim l) = [localPart, domain] ∧
        localPart ≠ [] ∧ (∀ c ∈ localPart, isLocalChar c = true) ∧
        ∀ lab ∈ splitOnChar '.' domain,
          lab ≠ [] ∧ (∃ c, lab.head? = some c ∧ c.isAlphanum = true) ∧
          (∃ c, lab.getLast? = some c ∧ c.isAlphanum = true) ∧
          (∀ c ∈ (lab.drop 1).dropLast, c.isAlphanum = true ∨ c = '-')) := by
  refine ⟨by decide, by decide, by decide, ?_⟩
  intro l h
  unfold isValidEmail at h
  split at h
  case h_2 => exact absurd h (by simp)
  case h_1 localPart domain heq =>
    simp only [Bool.and_eq_true, decide_eq_true_eq] at h
    obtain ⟨⟨hne, hlocal⟩, hdom⟩ := h
    refine ⟨localPart, domain, heq, hne, ?_, ?_⟩
    · exact fun c hc => List.all_eq_true.mp hlocal c hc
    · intro lab hlab
      exact validLabel_spec lab (List.all_eq_true.mp hdom lab hlab)

/-- C4 witness: the structural decomposition instantiated at the
accepted address user@example.com. -/
theorem isValidEmail_spec_witness :
    ∃ localPart domain,
      splitOnChar '@' (jsTrim (str "user@example.com")) = [localPart, domain] ∧
      localPart ≠ [] ∧ (∀ c ∈ localPart, isLocalChar c = true) ∧
      ∀ lab ∈ splitOnChar '.' domain,
        lab ≠ [] ∧ (∃ c, lab.head? = some c ∧ c.isAlphanum = true) ∧
        (∃ c, lab.getLast? = some c ∧ c.isAlphanum = true) ∧
        (∀ c ∈ (lab.drop 1).dropLast, c.isAlphanum = true ∨ c = '-') :=
  isValidEmail_spec.2.2.2 (str "user@example.com") (by decide)

/-- C5: with cached counts A maps to 5 and B maps to 2 and fetched
counts A maps to 5 and B maps to 3, detectUsedInvite returns invite B;
with no prior cache entry it returns none (undetermined) for every
fetched list, without any exception; and any detected invite is a
member of the fetched list whose use count strictly exceeds its cached
count. -/
theorem detectUsedInvite_spec :
    (detectUsedInvite [("A", 5), ("B", 3)] (some [("A", 5), ("B", 2)])).1 =
      some ("B", 3) ∧
    (∀ fetched, (detectUsedInvite fetched none).1 = none) ∧
    (∀ fetched old inv, (detectUsedInvite fetched (some old)).1 = some inv →
      inv ∈ fetched ∧ ∃ u, lookupUses old inv.1 = some u ∧ u < inv.2) := by
  refine ⟨by decide, fun _ => rfl, ?_⟩
  intro fetched old inv h
  unfold detectUsedInvite at h
  simp only at h
  refine ⟨List.mem_of_find?_eq_some h, ?_⟩
  have hp := List.find?_some h
  cases hl : lookupUses old inv.1 with
  | none => rw [hl] at hp; simp at hp
  | some u =>
    rw [hl] at hp
    simp only [decide_eq_true_eq] at hp
    exact ⟨u, rfl, hp⟩

/-- C5 witness: the detected-invite characterization instantiated at
the concrete cached and fetched states of the claim. -/
theorem detectUsedInvite_spec_witness :
    ("B", 3) ∈ [("A", 5), ("B", 3)] ∧
    ∃ u, lookupUses [("A", 5), ("B", 2)] "B" = some u ∧ u < 3 :=
  detectUsedInvite_spec.2.2 [("A", 5), ("B", 3)] [("A", 5), ("B", 2)] ("B", 3) (by decide)

/-- C6 counterexample: a call with no prior cache entry for the guild
leaves the cache entry absent — it is not replaced with the fetched
counts, contrary to the claimed unconditional refresh. -/
theorem detectUsedInvite_no_cache_refresh_cex :
    (detectUsedInvite [("A", 1)] none).2 = none ∧
    (detectUsedInvite [("A", 1)] none).2 ≠ some [("A", 1)] := by decide

/-- C6 amended: after a detectUsedInvite call whose fetch succeeds, the
cache entry is replaced with the fetched counts whenever a prior cache
entry existed (regardless of detection success); when no prior entry
existed, the function returns early and the cache entry stays absent. -/
theorem detectUsedInvite_cache_refresh :
    (∀ fetched old, (detectUsedInvite fetched (some old)).2 = some fetched) ∧
    (∀ fetched, (detectUsedInvite fetched none).2 = none) :=
  ⟨fun _ _ => rfl, fun _ => rfl⟩

/-- C7: a direct message from a non-bot author with no session in the
registry, or whose session has not been started, leaves the registry
unchanged and sends no reply. -/
theorem onMessageCreate_noop (env : Env) (reg : Registry) (msg : Message)
    (hb : msg.fromBot = false) (hg : msg.inGuild = false)
    (hs : regGet reg msg.authorId = none ∨
      ∃ s, regGet reg msg.authorId = some s ∧ s.started = false) :
    onMessageCreate env reg msg = (reg, []) := by
  unfold onMessageCreate
  rw [hb, hg]
  rcases hs with h | ⟨s, h, hstart⟩
  · rw [h]
    simp
  · rw [h]
    simp [hstart]

/-- C7 witness: a concrete DM from a user whose session exists but has
not been started. -/
theorem onMessageCreate_noop_witness :
    onMessageCreate envAccept [("u1", sessionNotStarted)] msgHello =
      ([("u1", sessionNotStarted)], []) := by
  have h1 : regGet [("u1", sessionNotStarted)] msgHello.authorId = some sessionNotStarted := by
    decide
  have h2 : sessionNotStarted.started = false := by decide
  exact onMessageCreate_noop envAccept [("u1", sessionNotStarted)] msgHello rfl rfl
    (Or.inr ⟨sessionNotStarted, h1, h2⟩)

/-- C8: for every string, sanitizeInput yields a string with no
carriage-return, line-feed or tab characters and length at most 500. -/
theorem sanitizeInput_spec (l : List Char) :
    (∀ c ∈ sanitizeInput l, c ≠ '\r' ∧ c ≠ '\n' ∧ c ≠ '\t') ∧
    (sanitizeInput l).length ≤ 500 := by
  constructor
  · intro c hc
    have hc2 : c ∈ (jsTrim l).map collapseCtl := List.take_subset _ _ hc
    obtain ⟨a, -, rfl⟩ := List.mem_map.mp hc2
    unfold collapseCtl
    split
    · refine ⟨by decide, by decide, by decide⟩
    · rename_i hcond
      simp only [Bool.or_eq_true, decide_eq_true_eq, not_or] at hcond
      exact ⟨hcond.1.1, hcond.1.2, hcond.2⟩
  · simp only [sanitizeInput]
    exact List.length_take_le 500 _

/-- C9: isValidPhone holds exactly when the count of ASCII digits in
the input is between 10 and 15 inclusive; the example number with 11
digits is valid and 12345 is not. -/
theorem isValidPhone_spec :
    (∀ l, isValidPhone l = true ↔ 10 ≤ countDigits l ∧ countDigits l ≤ 15) ∧
    countDigits (str "+1 (234) 567-8900") = 11 ∧
    isValidPhone (str "+1 (234) 567-8900") = true ∧
    isValidPhone (str "12345") = false := by
  refine ⟨?_, by decide, by decide, by decide⟩
  intro l
  simp [isValidPhone, countDigits, List.countP_eq_length_filter]

/-- C10: verifyPaidLearner is total — a missing, unreadable or
malformed allow-list yields the not-verified result for every email —
so an unavailable roster makes finalize take the rejection branch: the
session is deleted and the only effects are the processing notice and
the rejection DM (not the error branch that retains the session). -/
theorem verifyPaidLearner_total_and_finalize_rejects
    (email : Option (List Char)) (env : Env) (s : Session) (reg : Registry)
    (hdm : env.dmOk = true)
    (hr : env.roster = RosterSource.missing ∨ env.roster = RosterSource.unreadable ∨
      env.roster = RosterSource.malformed) :
    verifyPaidLearner env.roster email = ⟨false, none⟩ ∧
    (finalizeOnboarding env s reg).1 = regDelete reg s.userId ∧
    (finalizeOnboarding env s reg).2 =
      [Effect.dmSend s.userId Msg.processing, Effect.dmSend s.userId Msg.rejection] := by
  have hver : ∀ e, verifyPaidLearner env.roster e = ⟨false, none⟩ := by
    intro e
    rcases hr with h | h | h <;> rw [h] <;> rfl
  have hv : (verifyPaidLearner env.roster (dataGet s.data "email")).isVerified = false := by
    rw [hver]
  refine ⟨hver email, ?_, ?_⟩
  · rw [finalizeOnboarding, finalizeTry_reject_eq env s reg hdm hv]
  · rw [finalizeOnboarding, finalizeTry_reject_eq env s reg hdm hv]

/-- C10 witness: the missing-roster case at a concrete completed
session. -/
theorem verifyPaidLearner_total_witness :
    verifyPaidLearner envMissingRoster.roster (some (str "jane@scaler.com")) =
      ⟨false, none⟩ ∧
    (finalizeOnboarding envMissingRoster sessionComplete [("u2", sessionComplete)]).1 =
      regDelete [("u2", sessionComplete)] sessionComplete.userId ∧
    (finalizeOnboarding envMissingRoster sessionComplete [("u2", sessionComplete)]).2 =
      [Effect.dmSend sessionComplete.userId Msg.processing,
       Effect.dmSend sessionComplete.userId Msg.rejection] :=
  verifyPaidLearner_total_and_finalize_rejects (some (str "jane@scaler.com"))
    envMissingRoster sessionComplete [("u2", sessionComplete)] rfl (Or.inl rfl)

end OnboardingBot
